import Mathlib

/-!
Verification of the children-group supervisor of `bastion`
(`src/bastion/src/children.rs`), against its natural-language specification.

The group state machine is shallowly embedded: the `Children` struct becomes a
Lean structure, each method becomes a pure function returning the updated state
together with a trace of the observable actions it performed on its
collaborators (broadcast, parent link, executor, global dispatcher registry),
and the fallible handlers return an explicit status (`Ok`, `Err(())`, or a
Rust panic from `unreachable!` / `unimplemented!`). The `scaling` feature of
the crate is taken as enabled, since several claims mention the resizer.
-/

namespace Bastion

/-- Identifier of an actor (`BastionId` in the crate), modelled as a natural
number drawn from a fresh-id counter threaded through the group state. -/
abbrev BastionId := Nat

/-- Callback kinds (`CallbackType` in `callbacks.rs`) as referenced by
`children.rs`. -/
inductive CallbackType where
  | beforeStart
  | beforeRestart
  | afterRestart
  | afterStop
  deriving DecidableEq

/-- Message kinds (`BastionMessage` in `message.rs`) exactly as matched by
`Children::handle` (children.rs:771-858). Opaque payloads (user messages,
shared context state) are modelled as naturals. -/
inductive BastionMessage where
  | start
  | stop
  | kill
  | deploy
  | prune
  | superviseWith
  | applyCallback (k : CallbackType)
  | instantiatedChild (parentId childId st : Nat)
  | message (payload : Nat)
  | restartRequired (childId parentId : BastionId)
  | finishedChild (childId parentId : BastionId)
  | restartSubtree
  | restoreChild (childId : BastionId) (st : Nat)
  | dropChild (childId : BastionId)
  | setState (st : Nat)
  | stopped (childId : BastionId)
  | faulted (childId : BastionId)
  | heartbeat
  deriving DecidableEq

/-- An envelope (`envelope.rs`). The group's dispatch only ever inspects the
message kind, so the sender path and signature are not modelled. -/
structure Envelope where
  msg : BastionMessage
  deriving DecidableEq

/-- Observable actions the group performs on its collaborators, recorded as a
trace in the order the source performs them:
`killChildrenBcast` is `bcast.kill_children()`; `cancelAwait i` is
`handle.cancel()` followed by awaiting the drained task of member `i`;
`removeDispatcher` / `bcastStopped` / `bcastFaulted` are the registry removal
and the terminal broadcast signals; `sendParent` / `sendChildren` /
`sendChild` are the upward, fan-out and directed sends; `registerBcast` and
`spawn` are broadcast registration and `child.launch()`;
`updateActorsCount` is the `scaling` statistics refresh. -/
inductive Effect where
  | killChildrenBcast
  | cancelAwait (childId : BastionId)
  | removeDispatcher (d : Nat)
  | bcastStopped
  | bcastFaulted
  | sendParent (m : BastionMessage)
  | sendChildren (m : BastionMessage)
  | sendChild (childId : BastionId) (m : BastionMessage)
  | registerBcast (childId : BastionId)
  | spawn (childId : BastionId)
  | updateActorsCount (n : Nat)
  deriving DecidableEq

/-- Result of a handler: `Ok(())`, `Err(())`, or a Rust panic raised by an
`unreachable!` or `unimplemented!` arm. -/
inductive HStatus where
  | ok
  | err
  | panicked
  deriving DecidableEq

/-- What one mailbox iteration of `Children::run` does next: keep looping,
return from the loop (an `Err` from the dispatch), or panic. -/
inductive LoopAction where
  | keepGoing
  | exitLoop
  | panicked
  deriving DecidableEq

/-- Modelled from the spec: `OptimalSizeExploringResizer` lives in
`resizer.rs`, which is not under `src/`. Per the spec the resizer exposes
`lower_bound()` / `set_lower_bound()` with no stated constraint on the value,
and `with_resizer` reads `resizer.lower_bound()`; only the lower bound is
relevant to the claims, the statistics handles are opaque. -/
structure OptimalSizeExploringResizer where
  lowerBound : Nat
  deriving DecidableEq

/-- The group state (`struct Children` in children.rs:91-122, with the
`scaling` feature). `launched` and `helper_actors` are `FxHashMap`s keyed by
`BastionId`; only their key sets are ever consulted, so they are modelled as
key lists (kept duplicate-free by `insertKey` below). The opaque `init` and
`callbacks` fields and the resizer's statistics are never inspected by a
claim; of the resizer only its lower bound is kept. `nextId` models the
fresh-id supply behind `BastionId::new()`. -/
structure Children where
  selfId : BastionId
  launched : List BastionId
  redundancy : Nat
  preStartMsgs : List Envelope
  started : Bool
  dispatchers : List Nat
  name : Option String
  resizerLowerBound : Nat
  hearbeatTick : Nat
  helperActors : List BastionId
  nextId : BastionId
  deriving DecidableEq

/-- Key-set effect of `FxHashMap::insert`: an existing key keeps its place
(only its value is replaced), a new key is added. -/
def insertKey (l : List BastionId) (i : BastionId) : List BastionId :=
  if i ∈ l then l else l ++ [i]

/-- Models `Children::new` (children.rs:125-155): the defaults. The default
resizer's lower bound is 1, matching the default `redundancy`. -/
def Children.new (selfId : BastionId) (fresh : Nat) : Children :=
  { selfId := selfId
    launched := []
    redundancy := 1
    preStartMsgs := []
    started := false
    dispatchers := []
    name := none
    resizerLowerBound := 1
    hearbeatTick := 60
    helperActors := []
    nextId := fresh }

/-- Models `Children::with_redundancy` (children.rs:358-375): `0`
(`usize::MIN`) is coerced to `1` via `saturating_add(1)`; with the `scaling`
feature the resizer's lower bound is then synchronized with the stored
redundancy. -/
def Children.with_redundancy (c : Children) (redundancy : Nat) : Children :=
  let c' := if redundancy = 0 then { c with redundancy := redundancy + 1 }
            else { c with redundancy := redundancy }
  { c' with resizerLowerBound := c'.redundancy }

/-- Models `Children::with_resizer` (children.rs:465-469): the stored
redundancy is overwritten with the given resizer's lower bound, and the
resizer is stored. -/
def Children.with_resizer (c : Children) (r : OptimalSizeExploringResizer) :
    Children :=
  { c with redundancy := r.lowerBound, resizerLowerBound := r.lowerBound }

/-- Models `Children::with_name` (children.rs:247-250). -/
def Children.with_name (c : Children) (n : String) : Children :=
  { c with name := some n }

/-- Models `Children::with_dispatcher` (children.rs:418-421). -/
def Children.with_dispatcher (c : Children) (d : Nat) : Children :=
  { c with dispatchers := c.dispatchers ++ [d] }

/-- Models `Children::with_heartbeat_tick` (children.rs:579-587). -/
def Children.with_heartbeat_tick (c : Children) (interval : Nat) : Children :=
  { c with hearbeatTick := interval }

/-- One builder call on the group (spec section 6, builder surface).
`with_exec` and `with_callbacks` only set the opaque `init` / `callbacks`
fields and leave every modelled field unchanged. -/
inductive BuilderCall where
  | withName (n : String)
  | withExec
  | withRedundancy (n : Nat)
  | withDispatcher (d : Nat)
  | withResizer (r : OptimalSizeExploringResizer)
  | withCallbacks
  | withHeartbeatTick (d : Nat)
  deriving DecidableEq

/-- Applies one builder call. -/
def applyBuilder (c : Children) : BuilderCall → Children
  | BuilderCall.withName n => c.with_name n
  | BuilderCall.withExec => c
  | BuilderCall.withRedundancy n => c.with_redundancy n
  | BuilderCall.withDispatcher d => c.with_dispatcher d
  | BuilderCall.withResizer r => c.with_resizer r
  | BuilderCall.withCallbacks => c
  | BuilderCall.withHeartbeatTick d => c.with_heartbeat_tick d

/-- Applies a sequence of builder calls left to right. -/
def applyBuilders (c : Children) (calls : List BuilderCall) : Children :=
  calls.foldl applyBuilder c

/-- Models `Children::disable_helper_actors` (children.rs:609-623): drain
`helper_actors`, cancelling every helper task and awaiting the drained
futures. -/
def Children.disable_helper_actors (c : Children) : Children × List Effect :=
  ({ c with helperActors := [] }, c.helperActors.map Effect.cancelAwait)

/-- Models `Children::kill` (children.rs:625-642): `bcast.kill_children()`,
then drain `launched`, cancelling every member task and awaiting the drained
futures. -/
def Children.kill (c : Children) : Children × List Effect :=
  ({ c with launched := [] },
   Effect.killChildrenBcast :: c.launched.map Effect.cancelAwait)

/-- Models the effects of `Children::stopped` (children.rs:644-650): remove
the declared dispatchers from the global registry, then signal `stopped` on
the broadcast. The group state itself is unchanged. -/
def Children.stoppedEffects (c : Children) : List Effect :=
  c.dispatchers.map Effect.removeDispatcher ++ [Effect.bcastStopped]

/-- Models the effects of `Children::faulted` (children.rs:652-658): remove
the declared dispatchers from the global registry, then signal `faulted` on
the broadcast. -/
def Children.faultedEffects (c : Children) : List Effect :=
  c.dispatchers.map Effect.removeDispatcher ++ [Effect.bcastFaulted]

/-- Models `Children::kill_children` (children.rs:660-665): disable the
helpers, kill the members, report `stopped`, and return `Err(())`. -/
def Children.kill_children (c : Children) : Children × List Effect × HStatus :=
  let r1 := c.disable_helper_actors
  let r2 := r1.1.kill
  (r2.1, r1.2 ++ r2.2 ++ r2.1.stoppedEffects, HStatus.err)

/-- Models `Children::stop_children` (children.rs:667-672): the body is the
same as `kill_children`. -/
def Children.stop_children (c : Children) : Children × List Effect × HStatus :=
  let r1 := c.disable_helper_actors
  let r2 := r1.1.kill
  (r2.1, r1.2 ++ r2.2 ++ r2.1.stoppedEffects, HStatus.err)

/-- Models `Children::drop_child` (children.rs:759-769): remove the entry from
`launched` and, with the `scaling` feature, refresh the actor-count
statistic. -/
def Children.drop_child (c : Children) (i : BastionId) :
    Children × List Effect :=
  let c' := { c with launched := c.launched.erase i }
  (c', [Effect.updateActorsCount c'.launched.length])

/-- Models `Children::handle_stopped_child` (children.rs:674-686): a tracked
id is dropped and `FinishedChild{id, self.id}` is sent upward; an unknown id
is silently ignored; both return `Ok(())`. -/
def Children.handle_stopped_child (c : Children) (i : BastionId) :
    Children × List Effect × HStatus :=
  if i ∈ c.launched then
    let r := c.drop_child i
    (r.1, r.2 ++ [Effect.sendParent (BastionMessage.finishedChild i c.selfId)],
     HStatus.ok)
  else (c, [], HStatus.ok)

/-- Models `Children::handle_faulted_child` (children.rs:688-699): a tracked
faulty member escalates — `kill` the whole group, signal `faulted`, return
`Err(())`; an unknown id is silently ignored with `Ok(())`. -/
def Children.handle_faulted_child (c : Children) (i : BastionId) :
    Children × List Effect × HStatus :=
  if i ∈ c.launched then
    let r := c.kill
    (r.1, r.2 ++ r.1.faultedEffects, HStatus.err)
  else (c, [], HStatus.ok)

/-- Models `Children::request_restarting_child` (children.rs:701-708). -/
def Children.request_restarting_child (c : Children) (i parentId : BastionId) :
    Children × List Effect :=
  if parentId = c.selfId ∧ i ∈ c.launched then
    (c, [Effect.sendParent (BastionMessage.restartRequired i c.selfId)])
  else (c, [])

/-- Models `Children::restart_child` (children.rs:710-757). The source has no
membership check on `old_id`: a new broadcast child node is always created.
Modelled from the spec for the missing `broadcast.rs`: `Broadcast::new` with
path element `Child(old_id)` yields a broadcast whose id is `old_id` (spec
4.1.3, the id identity is reused). The broadcast is registered and the three
directed sends happen before the spawn; the handle is then inserted into
`launched` under the child's id. -/
def Children.restart_child (c : Children) (oldId : BastionId)
    (oldState : Nat) : Children × List Effect :=
  ({ c with launched := insertKey c.launched oldId },
   [Effect.registerBcast oldId,
    Effect.sendChild oldId (BastionMessage.setState oldState),
    Effect.sendChild oldId
      (BastionMessage.applyCallback CallbackType.afterRestart),
    Effect.sendChild oldId BastionMessage.start,
    Effect.spawn oldId])

/-- Models `Children::handle` (children.rs:771-858), the post-start
dispatcher. The `unreachable!` and `unimplemented!` arms are `panicked`. -/
def Children.handle (c : Children) (env : Envelope) :
    Children × List Effect × HStatus :=
  match env.msg with
  | BastionMessage.start => (c, [], HStatus.panicked)
  | BastionMessage.stop => c.stop_children
  | BastionMessage.kill => c.kill_children
  | BastionMessage.deploy => (c, [], HStatus.panicked)
  | BastionMessage.prune => (c, [], HStatus.panicked)
  | BastionMessage.superviseWith => (c, [], HStatus.panicked)
  | BastionMessage.applyCallback _ => (c, [], HStatus.panicked)
  | BastionMessage.instantiatedChild _ _ _ => (c, [], HStatus.panicked)
  | BastionMessage.message p =>
      (c, [Effect.sendChildren (BastionMessage.message p)], HStatus.ok)
  | BastionMessage.restartRequired i p =>
      let r := c.request_restarting_child i p
      (r.1, r.2, HStatus.ok)
  | BastionMessage.finishedChild _ _ => (c, [], HStatus.panicked)
  | BastionMessage.restartSubtree => (c, [], HStatus.panicked)
  | BastionMessage.restoreChild i st =>
      let r := c.restart_child i st
      (r.1, r.2, HStatus.ok)
  | BastionMessage.dropChild i =>
      let r := c.drop_child i
      (r.1, r.2, HStatus.ok)
  | BastionMessage.setState _ => (c, [], HStatus.panicked)
  | BastionMessage.stopped i => c.handle_stopped_child i
  | BastionMessage.faulted i => c.handle_faulted_child i
  | BastionMessage.heartbeat => (c, [], HStatus.ok)

/-- Models the replay loop inside `Children::initialize`
(children.rs:880-885): handle each buffered envelope in order; the first
`Err` aborts the replay with `Err`, and a panic propagates. -/
def Children.replay (c : Children) :
    List Envelope → Children × List Effect × HStatus
  | [] => (c, [], HStatus.ok)
  | e :: rest =>
    match c.handle e with
    | (c1, ef1, HStatus.ok) =>
        let r2 := c1.replay rest
        (r2.1, ef1 ++ r2.2.1, r2.2.2)
    | (c1, ef1, HStatus.err) => (c1, ef1, HStatus.err)
    | (c1, ef1, HStatus.panicked) => (c1, ef1, HStatus.panicked)

/-- Models the state part of `Children::initialize` (children.rs:860-888):
mark the group started; the buffer is drained (and shrunk) before replay. -/
def Children.postStart (c : Children) : Children :=
  { c with started := true, preStartMsgs := [] }

/-- Models `Children::initialize` (children.rs:860-888): set `started`,
broadcast `Start` to all current members, then replay the drained pre-start
buffer in order. Named `startup` because its source name is a Lean keyword. -/
def Children.startup (c : Children) : Children × List Effect × HStatus :=
  let r := (c.postStart).replay c.preStartMsgs
  (r.1, Effect.sendChildren BastionMessage.start :: r.2.1, r.2.2)

/-- Converts a handler status into what the `run` loop does next: `Err` makes
`run` return, i.e. the loop terminates with failure. -/
def toLoop : HStatus → LoopAction
  | HStatus.ok => LoopAction.keepGoing
  | HStatus.err => LoopAction.exitLoop
  | HStatus.panicked => LoopAction.panicked

/-- Models the mailbox step of `Children::run` (children.rs:936-969) on an
available envelope: a `Start` message runs the start transition regardless of
`started` (it is the first match arm); any other message is buffered into
`pre_start_msgs` when not started, and dispatched through `handle`
otherwise. -/
def Children.runDispatch (c : Children) (env : Envelope) :
    Children × List Effect × LoopAction :=
  if env.msg = BastionMessage.start then
    let r := c.startup
    (r.1, r.2.1, toLoop r.2.2)
  else if c.started = false then
    ({ c with preStartMsgs := c.preStartMsgs ++ [env] }, [],
     LoopAction.keepGoing)
  else
    let r := c.handle env
    (r.1, r.2.1, toLoop r.2.2)

/-- Iterated mailbox steps of `Children::run` over a queue of arrivals,
stopping as soon as the loop exits or panics. -/
def Children.runSteps (c : Children) :
    List Envelope → Children × List Effect × LoopAction
  | [] => (c, [], LoopAction.keepGoing)
  | e :: rest =>
    match c.runDispatch e with
    | (c1, ef1, LoopAction.keepGoing) =>
        let r2 := c1.runSteps rest
        (r2.1, ef1 ++ r2.2.1, r2.2.2)
    | (c1, ef1, LoopAction.exitLoop) => (c1, ef1, LoopAction.exitLoop)
    | (c1, ef1, LoopAction.panicked) => (c1, ef1, LoopAction.panicked)

/-- Models `Children::launch_child` (children.rs:976-1028): a fresh id, an
`InstantiatedChild` notification upward, broadcast registration, a directed
`Start`, then the spawn; the handle is inserted into `launched`. The fresh
`ContextState` is opaque and modelled as `0`. -/
def Children.launch_child (c : Children) : Children × List Effect :=
  let i := c.nextId
  ({ c with launched := insertKey c.launched i, nextId := c.nextId + 1 },
   [Effect.sendParent (BastionMessage.instantiatedChild c.selfId i 0),
    Effect.registerBcast i,
    Effect.sendChild i BastionMessage.start,
    Effect.spawn i])

/-- Models `Children::launch_heartbeat` (children.rs:1030-1066): the heartbeat
helper gets a fresh id, its broadcast is registered and it is spawned; the
handle is inserted into `helper_actors`, not `launched`. -/
def Children.launch_heartbeat (c : Children) : Children × List Effect :=
  let i := c.nextId
  ({ c with helperActors := insertKey c.helperActors i, nextId := c.nextId + 1 },
   [Effect.registerBcast i, Effect.spawn i])

/-- Helper modelling the `for _ in 0..redundancy` loop of `launch_elems`. -/
def Children.launchChildren (c : Children) : Nat → Children × List Effect
  | 0 => (c, [])
  | n + 1 =>
    let r := c.launch_child
    let r2 := r.1.launchChildren n
    (r2.1, r.2 ++ r2.2)

/-- Models `Children::launch_elems` (children.rs:1068-1075): `redundancy`
primary members, then one heartbeat helper. -/
def Children.launch_elems (c : Children) : Children × List Effect :=
  let r := c.launchChildren c.redundancy
  let r2 := r.1.launch_heartbeat
  (r2.1, r.2 ++ r2.2)

/-- A concrete started group with one member, one helper and one dispatcher,
used by witnesses and counterexamples. -/
def sampleStarted : Children :=
  { selfId := 0, launched := [1], redundancy := 1, preStartMsgs := [],
    started := true, dispatchers := [9], name := none, resizerLowerBound := 1,
    hearbeatTick := 60, helperActors := [5], nextId := 10 }

/-- A concrete started group tracking no members. -/
def sampleUntracked : Children :=
  { selfId := 0, launched := [], redundancy := 1, preStartMsgs := [],
    started := true, dispatchers := [], name := none, resizerLowerBound := 1,
    hearbeatTick := 60, helperActors := [], nextId := 10 }

/-- A concrete fresh, un-started group. -/
def sampleFresh : Children := Children.new 0 100

/-- A concrete pre-start arrival sequence without any `Start`. -/
def sampleArrivals : List Envelope :=
  [Envelope.mk (BastionMessage.message 7),
   Envelope.mk BastionMessage.heartbeat,
   Envelope.mk (BastionMessage.message 8)]

/-- Handling any single envelope never touches the pre-start buffer or the
started flag (no arm of `Children::handle` writes them). -/
theorem handle_preserves (c : Children) (e : Envelope) :
    (c.handle e).1.preStartMsgs = c.preStartMsgs ∧
    (c.handle e).1.started = c.started := by
  obtain ⟨m⟩ := e
  cases m <;>
    first
      | exact ⟨rfl, rfl⟩
      | (simp only [Children.handle, Children.handle_stopped_child,
           Children.handle_faulted_child, Children.request_restarting_child]
         split <;> exact ⟨rfl, rfl⟩)

/-- Replaying a list of envelopes never touches the pre-start buffer or the
started flag. -/
theorem replay_preserves (l : List Envelope) : ∀ c : Children,
    (c.replay l).1.preStartMsgs = c.preStartMsgs ∧
    (c.replay l).1.started = c.started := by
  induction l with
  | nil => intro c; exact ⟨rfl, rfl⟩
  | cons e rest ih =>
    intro c
    simp only [Children.replay]
    split
    next c1 ef1 heq =>
      have h := handle_preserves c e
      rw [heq] at h
      exact ⟨((ih c1).1).trans h.1, ((ih c1).2).trans h.2⟩
    next c1 ef1 heq =>
      have h := handle_preserves c e
      rw [heq] at h
      exact h
    next c1 ef1 heq =>
      have h := handle_preserves c e
      rw [heq] at h
      exact h

/-- Before the group is started, a queue of non-Start envelopes is appended to
the pre-start buffer in arrival order, with no effects and the loop still
running. -/
theorem runSteps_buffer (l : List Envelope) : ∀ c : Children,
    c.started = false → (∀ e ∈ l, e.msg ≠ BastionMessage.start) →
    c.runSteps l =
      ({ c with preStartMsgs := c.preStartMsgs ++ l }, [],
       LoopAction.keepGoing) := by
  induction l with
  | nil =>
    intro c _ _
    simp [Children.runSteps]
  | cons e rest ih =>
    intro c hs hn
    have hne : e.msg ≠ BastionMessage.start := hn e (List.mem_cons_self e rest)
    have hd : c.runDispatch e =
        ({ c with preStartMsgs := c.preStartMsgs ++ [e] }, [],
         LoopAction.keepGoing) := by
      simp [Children.runDispatch, hne, hs]
    have hrest := ih { c with preStartMsgs := c.preStartMsgs ++ [e] } hs
      (fun x hx => hn x (List.mem_cons_of_mem e hx))
    simp only [Children.runSteps, hd, hrest]
    simp

/-- The run loop's Start arm unconditionally runs the start transition. -/
theorem runDispatch_start (c : Children) :
    c.runDispatch (Envelope.mk BastionMessage.start) =
      (((c.postStart).replay c.preStartMsgs).1,
       Effect.sendChildren BastionMessage.start ::
         ((c.postStart).replay c.preStartMsgs).2.1,
       toLoop ((c.postStart).replay c.preStartMsgs).2.2) := by
  simp [Children.runDispatch, Children.startup]

/-- Claim C6: the post-start handling of Stop and of Kill are identical: from
any group state both produce the same final state (helpers disabled, every
member task cancelled and drained, stopped reported, dispatchers
unregistered) and the same loop-terminating Err result. -/
theorem children_c6_stop_kill_equal (c : Children) :
    c.stop_children = c.kill_children ∧
    c.handle (Envelope.mk BastionMessage.stop) =
      c.handle (Envelope.mk BastionMessage.kill) ∧
    (c.stop_children).1.launched = [] ∧
    (c.stop_children).1.helperActors = [] ∧
    (c.stop_children).2.2 = HStatus.err :=
  ⟨rfl, rfl, rfl, rfl, rfl⟩

/-- Claim C3: a post-start RestoreChild performs the restart: the new
broadcast is registered and SetState(old_state), ApplyCallback(AfterRestart),
Start are sent to the new member's slot in this order and before the spawn;
afterwards the new member's handle is inserted into launched and the loop
keeps going. -/
theorem children_c3_restart_order (c : Children) (i : BastionId) (st : Nat)
    (hs : c.started = true) :
    c.runDispatch (Envelope.mk (BastionMessage.restoreChild i st)) =
      ({ c with launched := insertKey c.launched i },
       [Effect.registerBcast i,
        Effect.sendChild i (BastionMessage.setState st),
        Effect.sendChild i
          (BastionMessage.applyCallback CallbackType.afterRestart),
        Effect.sendChild i BastionMessage.start,
        Effect.spawn i],
       LoopAction.keepGoing) := by
  simp [Children.runDispatch, hs, Children.handle, Children.restart_child,
    toLoop]

/-- Witness for C3 at a concrete started state. -/
theorem children_c3_witness :
    sampleStarted.runDispatch
        (Envelope.mk (BastionMessage.restoreChild 1 4)) =
      ({ sampleStarted with launched := insertKey sampleStarted.launched 1 },
       [Effect.registerBcast 1,
        Effect.sendChild 1 (BastionMessage.setState 4),
        Effect.sendChild 1
          (BastionMessage.applyCallback CallbackType.afterRestart),
        Effect.sendChild 1 BastionMessage.start,
        Effect.spawn 1],
       LoopAction.keepGoing) :=
  children_c3_restart_order sampleStarted 1 4 rfl

/-- Claim C10 counterexample: restart_child for an old id that is not in
launched is not ignored at a concrete input: launched changes and messages
are sent. -/
theorem children_c10_counterexample :
    ¬ ((sampleUntracked.restart_child 7 0).1.launched =
         sampleUntracked.launched ∧
       (sampleUntracked.restart_child 7 0).2 = []) := by
  decide

/-- Claim C10 (amended): restart_child performs no membership check, so for an
old id not in launched it still registers a new broadcast under that id,
sends SetState, ApplyCallback(AfterRestart) and Start, spawns the member and
appends the id to launched. -/
theorem children_c10_restart_untracked (c : Children) (i : BastionId)
    (st : Nat) (h : i ∉ c.launched) :
    c.restart_child i st =
      ({ c with launched := c.launched ++ [i] },
       [Effect.registerBcast i,
        Effect.sendChild i (BastionMessage.setState st),
        Effect.sendChild i
          (BastionMessage.applyCallback CallbackType.afterRestart),
        Effect.sendChild i BastionMessage.start,
        Effect.spawn i]) := by
  simp [Children.restart_child, insertKey, h]

/-- Witness for the amended C10 at a concrete input. -/
theorem children_c10_witness :
    sampleUntracked.restart_child 7 0 =
      ({ sampleUntracked with launched := sampleUntracked.launched ++ [7] },
       [Effect.registerBcast 7,
        Effect.sendChild 7 (BastionMessage.setState 0),
        Effect.sendChild 7
          (BastionMessage.applyCallback CallbackType.afterRestart),
        Effect.sendChild 7 BastionMessage.start,
        Effect.spawn 7]) :=
  children_c10_restart_untracked sampleUntracked 7 0 (by decide)

/-- Claim C7 counterexample: a Start received while started is already true is
not ignored: the run loop re-enters the start transition and broadcasts Start
to the members again. -/
theorem children_c7_counterexample :
    Effect.sendChildren BastionMessage.start ∈
      (sampleStarted.runDispatch (Envelope.mk BastionMessage.start)).2.1 := by
  decide

/-- Claim C7 (amended): the run loop matches Start before consulting started,
so a Start received when started is already true re-runs the start
transition: with the (invariantly) empty post-start buffer the group state is
unchanged but Start is broadcast to the members again, and the loop keeps
going. -/
theorem children_c7_start_rebroadcast (c : Children)
    (hs : c.started = true) (hb : c.preStartMsgs = []) :
    c.runDispatch (Envelope.mk BastionMessage.start) =
      (c, [Effect.sendChildren BastionMessage.start],
       LoopAction.keepGoing) := by
  have hps : c.postStart = c := by
    cases c
    simp only [Children.postStart] at *
    simp_all
  rw [runDispatch_start, hb, hps]
  rfl

/-- Witness for the amended C7 at a concrete started state. -/
theorem children_c7_witness :
    sampleStarted.runDispatch (Envelope.mk BastionMessage.start) =
      (sampleStarted, [Effect.sendChildren BastionMessage.start],
       LoopAction.keepGoing) :=
  children_c7_start_rebroadcast sampleStarted rfl rfl

/-- Cancel effects are never the faulted notification. -/
theorem count_bcastFaulted_cancel (l : List BastionId) :
    (l.map Effect.cancelAwait).count Effect.bcastFaulted = 0 := by
  rw [List.count_eq_zero]
  simp

/-- Dispatcher-removal effects are never the faulted notification. -/
theorem count_bcastFaulted_remove (l : List Nat) :
    (l.map Effect.removeDispatcher).count Effect.bcastFaulted = 0 := by
  rw [List.count_eq_zero]
  simp

/-- Claim C2 counterexample: on a fault of a tracked member, the helper actors
are not drained before the faulted notification: the heartbeat helper (id 5)
stays in helper_actors and no cancel effect is recorded for it. -/
theorem children_c2_counterexample :
    (sampleStarted.runDispatch (Envelope.mk (BastionMessage.faulted 1))).1.helperActors
        = [5] ∧
    Effect.cancelAwait 5 ∉
      (sampleStarted.runDispatch
        (Envelope.mk (BastionMessage.faulted 1))).2.1 := by
  decide

/-- Claim C2 (amended): on post-start Stop and Kill, launched, helper_actors
and the registry-side dispatcher entries are all drained, every cancel and
removal effect preceding the terminal stopped notification; on a fault of a
tracked member, launched and the dispatcher entries are drained before the
faulted notification, but helper_actors is left untouched. -/
theorem children_c2_drain (c : Children) (i : BastionId)
    (hs : c.started = true) :
    c.runDispatch (Envelope.mk BastionMessage.stop) =
      ({ c with launched := [], helperActors := [] },
       c.helperActors.map Effect.cancelAwait ++
         (Effect.killChildrenBcast :: c.launched.map Effect.cancelAwait) ++
         (c.dispatchers.map Effect.removeDispatcher ++ [Effect.bcastStopped]),
       LoopAction.exitLoop) ∧
    c.runDispatch (Envelope.mk BastionMessage.kill) =
      c.runDispatch (Envelope.mk BastionMessage.stop) ∧
    (i ∈ c.launched →
      c.runDispatch (Envelope.mk (BastionMessage.faulted i)) =
        ({ c with launched := [] },
         (Effect.killChildrenBcast :: c.launched.map Effect.cancelAwait) ++
           (c.dispatchers.map Effect.removeDispatcher ++
             [Effect.bcastFaulted]),
         LoopAction.exitLoop)) ∧
    (c.runDispatch (Envelope.mk (BastionMessage.faulted i))).1.helperActors =
      c.helperActors := by
  have hstop : c.runDispatch (Envelope.mk BastionMessage.stop) =
      ({ c with launched := [], helperActors := [] },
       c.helperActors.map Effect.cancelAwait ++
         (Effect.killChildrenBcast :: c.launched.map Effect.cancelAwait) ++
         (c.dispatchers.map Effect.removeDispatcher ++ [Effect.bcastStopped]),
       LoopAction.exitLoop) := by
    simp [Children.runDispatch, hs, Children.handle, Children.stop_children,
      Children.disable_helper_actors, Children.kill, Children.stoppedEffects,
      toLoop]
  have hkill : c.runDispatch (Envelope.mk BastionMessage.kill) =
      ({ c with launched := [], helperActors := [] },
       c.helperActors.map Effect.cancelAwait ++
         (Effect.killChildrenBcast :: c.launched.map Effect.cancelAwait) ++
         (c.dispatchers.map Effect.removeDispatcher ++ [Effect.bcastStopped]),
       LoopAction.exitLoop) := by
    simp [Children.runDispatch, hs, Children.handle, Children.kill_children,
      Children.disable_helper_actors, Children.kill, Children.stoppedEffects,
      toLoop]
  have hfault : i ∈ c.launched →
      c.runDispatch (Envelope.mk (BastionMessage.faulted i)) =
        ({ c with launched := [] },
         (Effect.killChildrenBcast :: c.launched.map Effect.cancelAwait) ++
           (c.dispatchers.map Effect.removeDispatcher ++
             [Effect.bcastFaulted]),
         LoopAction.exitLoop) := by
    intro hmem
    simp [Children.runDispatch, hs, Children.handle,
      Children.handle_faulted_child, hmem, Children.kill,
      Children.faultedEffects, toLoop]
  refine ⟨hstop, hkill.trans hstop.symm, hfault, ?_⟩
  by_cases hmem : i ∈ c.launched
  · rw [hfault hmem]
  · simp [Children.runDispatch, hs, Children.handle,
      Children.handle_faulted_child, hmem, toLoop]

/-- Witness for the amended C2 at a concrete started state. -/
theorem children_c2_witness :
    sampleStarted.runDispatch (Envelope.mk BastionMessage.stop) =
      ({ sampleStarted with launched := [], helperActors := [] },
       sampleStarted.helperActors.map Effect.cancelAwait ++
         (Effect.killChildrenBcast ::
           sampleStarted.launched.map Effect.cancelAwait) ++
         (sampleStarted.dispatchers.map Effect.removeDispatcher ++
           [Effect.bcastStopped]),
       LoopAction.exitLoop) ∧
    sampleStarted.runDispatch (Envelope.mk BastionMessage.kill) =
      sampleStarted.runDispatch (Envelope.mk BastionMessage.stop) ∧
    (1 ∈ sampleStarted.launched →
      sampleStarted.runDispatch (Envelope.mk (BastionMessage.faulted 1)) =
        ({ sampleStarted with launched := [] },
         (Effect.killChildrenBcast ::
           sampleStarted.launched.map Effect.cancelAwait) ++
           (sampleStarted.dispatchers.map Effect.removeDispatcher ++
             [Effect.bcastFaulted]),
         LoopAction.exitLoop)) ∧
    (sampleStarted.runDispatch
        (Envelope.mk (BastionMessage.faulted 1))).1.helperActors =
      sampleStarted.helperActors :=
  children_c2_drain sampleStarted 1 rfl

/-- Claim C4: a post-start Faulted for a tracked member cancels and drains
every member task (launched becomes empty), removes the dispatchers from the
registry, reports faulted upward exactly once, and terminates the loop with
failure; an unknown id leaves the state unchanged with no effects and the
loop running. -/
theorem children_c4_fault_escalation (c : Children) (i : BastionId)
    (hs : c.started = true) :
    (i ∈ c.launched →
      c.runDispatch (Envelope.mk (BastionMessage.faulted i)) =
        ({ c with launched := [] },
         (Effect.killChildrenBcast :: c.launched.map Effect.cancelAwait) ++
           (c.dispatchers.map Effect.removeDispatcher ++
             [Effect.bcastFaulted]),
         LoopAction.exitLoop) ∧
      ((c.runDispatch (Envelope.mk (BastionMessage.faulted i))).2.1).count
          Effect.bcastFaulted = 1) ∧
    (i ∉ c.launched →
      c.runDispatch (Envelope.mk (BastionMessage.faulted i)) =
        (c, [], LoopAction.keepGoing)) := by
  constructor
  · intro hmem
    have heq : c.runDispatch (Envelope.mk (BastionMessage.faulted i)) =
        ({ c with launched := [] },
         (Effect.killChildrenBcast :: c.launched.map Effect.cancelAwait) ++
           (c.dispatchers.map Effect.removeDispatcher ++
             [Effect.bcastFaulted]),
         LoopAction.exitLoop) := by
      simp [Children.runDispatch, hs, Children.handle,
        Children.handle_faulted_child, hmem, Children.kill,
        Children.faultedEffects, toLoop]
    refine ⟨heq, ?_⟩
    rw [heq]
    simp [List.count_append, List.count_cons, count_bcastFaulted_cancel,
      count_bcastFaulted_remove]
  · intro hmem
    simp [Children.runDispatch, hs, Children.handle,
      Children.handle_faulted_child, hmem, toLoop]

/-- Witness for C4 at a concrete started state with a tracked member. -/
theorem children_c4_witness :
    (1 ∈ sampleStarted.launched →
      sampleStarted.runDispatch (Envelope.mk (BastionMessage.faulted 1)) =
        ({ sampleStarted with launched := [] },
         (Effect.killChildrenBcast ::
           sampleStarted.launched.map Effect.cancelAwait) ++
           (sampleStarted.dispatchers.map Effect.removeDispatcher ++
             [Effect.bcastFaulted]),
         LoopAction.exitLoop) ∧
      ((sampleStarted.runDispatch
          (Envelope.mk (BastionMessage.faulted 1))).2.1).count
          Effect.bcastFaulted = 1) ∧
    (1 ∉ sampleStarted.launched →
      sampleStarted.runDispatch (Envelope.mk (BastionMessage.faulted 1)) =
        (sampleStarted, [], LoopAction.keepGoing)) :=
  children_c4_fault_escalation sampleStarted 1 rfl

/-- Claim C8: a post-start Stopped id removes the id from launched and sends
FinishedChild{id, self.id} upward exactly when the id was tracked; an unknown
id changes nothing and sends nothing to the parent; both cases succeed and
the loop keeps going. -/
theorem children_c8_stopped_child (c : Children) (i : BastionId)
    (hs : c.started = true) :
    (i ∈ c.launched →
      c.runDispatch (Envelope.mk (BastionMessage.stopped i)) =
        ({ c with launched := c.launched.erase i },
         [Effect.updateActorsCount (c.launched.erase i).length,
          Effect.sendParent (BastionMessage.finishedChild i c.selfId)],
         LoopAction.keepGoing)) ∧
    (i ∉ c.launched →
      c.runDispatch (Envelope.mk (BastionMessage.stopped i)) =
        (c, [], LoopAction.keepGoing)) ∧
    (Effect.sendParent (BastionMessage.finishedChild i c.selfId) ∈
        (c.runDispatch (Envelope.mk (BastionMessage.stopped i))).2.1 ↔
      i ∈ c.launched) := by
  have hin : i ∈ c.launched →
      c.runDispatch (Envelope.mk (BastionMessage.stopped i)) =
        ({ c with launched := c.launched.erase i },
         [Effect.updateActorsCount (c.launched.erase i).length,
          Effect.sendParent (BastionMessage.finishedChild i c.selfId)],
         LoopAction.keepGoing) := by
    intro hmem
    simp [Children.runDispatch, hs, Children.handle,
      Children.handle_stopped_child, hmem, Children.drop_child, toLoop]
  have hout : i ∉ c.launched →
      c.runDispatch (Envelope.mk (BastionMessage.stopped i)) =
        (c, [], LoopAction.keepGoing) := by
    intro hmem
    simp [Children.runDispatch, hs, Children.handle,
      Children.handle_stopped_child, hmem, toLoop]
  refine ⟨hin, hout, ?_⟩
  by_cases hmem : i ∈ c.launched
  · rw [hin hmem]
    simp [hmem]
  · rw [hout hmem]
    simp [hmem]

/-- Witness for C8 at a concrete started state with a tracked member. -/
theorem children_c8_witness :
    (1 ∈ sampleStarted.launched →
      sampleStarted.runDispatch (Envelope.mk (BastionMessage.stopped 1)) =
        ({ sampleStarted with launched := sampleStarted.launched.erase 1 },
         [Effect.updateActorsCount (sampleStarted.launched.erase 1).length,
          Effect.sendParent
            (BastionMessage.finishedChild 1 sampleStarted.selfId)],
         LoopAction.keepGoing)) ∧
    (1 ∉ sampleStarted.launched →
      sampleStarted.runDispatch (Envelope.mk (BastionMessage.stopped 1)) =
        (sampleStarted, [], LoopAction.keepGoing)) ∧
    (Effect.sendParent (BastionMessage.finishedChild 1 sampleStarted.selfId) ∈
        (sampleStarted.runDispatch
          (Envelope.mk (BastionMessage.stopped 1))).2.1 ↔
      1 ∈ sampleStarted.launched) :=
  children_c8_stopped_child sampleStarted 1 rfl

/-- Redundancy stays at least 1 across builder sequences whose resizers all
carry a lower bound of at least 1. -/
theorem applyBuilders_redundancy (calls : List BuilderCall) : ∀ c : Children,
    1 ≤ c.redundancy →
    (∀ r : OptimalSizeExploringResizer,
      BuilderCall.withResizer r ∈ calls → 1 ≤ r.lowerBound) →
    1 ≤ (applyBuilders c calls).redundancy := by
  induction calls with
  | nil => intro c h _; exact h
  | cons b rest ih =>
    intro c h hres
    have hstep : 1 ≤ (applyBuilder c b).redundancy := by
      cases b with
      | withName n => exact h
      | withExec => exact h
      | withRedundancy n =>
        by_cases hn : n = 0
        · simp [applyBuilder, Children.with_redundancy, hn]
        · simp only [applyBuilder, Children.with_redundancy, if_neg hn]
          omega
      | withDispatcher d => exact h
      | withResizer r =>
        simpa [applyBuilder, Children.with_resizer] using
          hres r (List.mem_cons_self _ _)
      | withCallbacks => exact h
      | withHeartbeatTick d => exact h
    have hrest := ih (applyBuilder c b) hstep
      (fun r hr => hres r (List.mem_cons_of_mem _ hr))
    simpa [applyBuilders, List.foldl_cons] using hrest

/-- Claim C5 counterexample: with_resizer with a resizer whose lower bound is
0 stores redundancy 0, breaking the claimed invariant redundancy at least
1. -/
theorem children_c5_counterexample :
    ¬ 1 ≤ ((Children.new 0 0).with_resizer
        (OptimalSizeExploringResizer.mk 0)).redundancy := by
  decide

/-- Claim C5 (amended): with_redundancy 0 stores 1, with_redundancy n for n at
least 1 stores n, and with_resizer overwrites redundancy with the resizer's
lower bound; hence redundancy at least 1 holds after any builder sequence
provided every with_resizer call carries a lower bound of at least 1. -/
theorem children_c5_redundancy (calls : List BuilderCall) (sid fresh : Nat)
    (hres : ∀ r : OptimalSizeExploringResizer,
      BuilderCall.withResizer r ∈ calls → 1 ≤ r.lowerBound) :
    1 ≤ (applyBuilders (Children.new sid fresh) calls).redundancy ∧
    (∀ c : Children, (c.with_redundancy 0).redundancy = 1) ∧
    (∀ c : Children, ∀ n : Nat, 1 ≤ n → (c.with_redundancy n).redundancy = n) ∧
    (∀ c : Children, ∀ r : OptimalSizeExploringResizer,
      (c.with_resizer r).redundancy = r.lowerBound) := by
  refine ⟨applyBuilders_redundancy calls (Children.new sid fresh)
      (by simp [Children.new]) hres, ?_, ?_, ?_⟩
  · intro c
    simp [Children.with_redundancy]
  · intro c n hn
    have hn0 : ¬ n = 0 := by omega
    simp [Children.with_redundancy, hn0]
  · intro c r
    rfl

/-- Witness for the amended C5 at a concrete builder sequence. -/
theorem children_c5_witness :
    1 ≤ (applyBuilders (Children.new 0 0)
        [BuilderCall.withRedundancy 0,
         BuilderCall.withResizer (OptimalSizeExploringResizer.mk 3)]).redundancy ∧
    (∀ c : Children, (c.with_redundancy 0).redundancy = 1) ∧
    (∀ c : Children, ∀ n : Nat, 1 ≤ n → (c.with_redundancy n).redundancy = n) ∧
    (∀ c : Children, ∀ r : OptimalSizeExploringResizer,
      (c.with_resizer r).redundancy = r.lowerBound) :=
  children_c5_redundancy
    [BuilderCall.withRedundancy 0,
     BuilderCall.withResizer (OptimalSizeExploringResizer.mk 3)] 0 0
    (by
      intro r hr
      simp only [List.mem_cons, List.not_mem_nil, or_false,
        reduceCtorEq, false_or] at hr
      rw [BuilderCall.withResizer.injEq] at hr
      rw [hr]
      decide)

/-- A fresh id is appended by launch_child when every tracked id is below the
counter. -/
theorem launch_child_state (c : Children) (hnot : c.nextId ∉ c.launched) :
    (c.launch_child).1 =
      { c with launched := c.launched ++ [c.nextId], nextId := c.nextId + 1 } := by
  simp [Children.launch_child, insertKey, hnot]

/-- The launch loop adds exactly one fresh member per iteration: lengths,
counter, id bounds and helper map evolve as stated. -/
theorem launchChildren_spec (n : Nat) : ∀ c : Children,
    (∀ x ∈ c.launched, x < c.nextId) →
    ((c.launchChildren n).1.launched.length = c.launched.length + n ∧
     (c.launchChildren n).1.nextId = c.nextId + n ∧
     (∀ x ∈ (c.launchChildren n).1.launched,
        x < (c.launchChildren n).1.nextId) ∧
     (c.launchChildren n).1.helperActors = c.helperActors) := by
  induction n with
  | zero =>
    intro c h
    exact ⟨rfl, rfl, h, rfl⟩
  | succ n ih =>
    intro c h
    have hnot : c.nextId ∉ c.launched := fun hmem =>
      absurd (h _ hmem) (lt_irrefl _)
    have hstep : (c.launchChildren (n + 1)).1 =
        (({ c with launched := c.launched ++ [c.nextId], nextId := c.nextId + 1 } : Children).launchChildren n).1 := by
      simp only [Children.launchChildren, launch_child_state c hnot]
    have hinv : ∀ x ∈ ({ c with launched := c.launched ++ [c.nextId], nextId := c.nextId + 1 } : Children).launched,
        x < ({ c with launched := c.launched ++ [c.nextId], nextId := c.nextId + 1 } : Children).nextId := by
      intro x hx
      simp only [List.mem_append, List.mem_singleton] at hx
      rcases hx with hx | hx
      · exact Nat.lt_succ_of_lt (h x hx)
      · simp [hx]
    obtain ⟨h1, h2, h3, h4⟩ :=
      ih { c with launched := c.launched ++ [c.nextId], nextId := c.nextId + 1 } hinv
    rw [hstep]
    refine ⟨?_, ?_, h3, ?_⟩
    · rw [h1]
      show (c.launched ++ [c.nextId]).length + n = c.launched.length + (n + 1)
      simp only [List.length_append, List.length_cons, List.length_nil]
      omega
    · rw [h2]
      show c.nextId + 1 + n = c.nextId + (n + 1)
      exact Nat.succ_add_eq_add_succ c.nextId n
    · rw [h4]

/-- Claim C9: launch_elems on a fresh group inserts exactly redundancy primary
member handles into launched and exactly one heartbeat helper handle into
helper_actors, and the helper id never lands in launched. -/
theorem children_c9_launch_elems (c : Children)
    (hl : c.launched = []) (hh : c.helperActors = []) :
    (c.launch_elems).1.launched.length = c.redundancy ∧
    (c.launch_elems).1.helperActors = [c.nextId + c.redundancy] ∧
    c.nextId + c.redundancy ∉ (c.launch_elems).1.launched := by
  have h0 : ∀ x ∈ c.launched, x < c.nextId := by
    rw [hl]
    intro x hx
    cases hx
  obtain ⟨h1, h2, h3, h4⟩ := launchChildren_spec c.redundancy c h0
  rw [hl] at h1
  rw [hh] at h4
  refine ⟨?_, ?_, ?_⟩
  · show ((c.launchChildren c.redundancy).1.launch_heartbeat).1.launched.length
        = c.redundancy
    simpa [Children.launch_heartbeat] using h1
  · show ((c.launchChildren c.redundancy).1.launch_heartbeat).1.helperActors
        = [c.nextId + c.redundancy]
    simp [Children.launch_heartbeat, insertKey, h4, h2]
  · intro hmem
    have hlt : c.nextId + c.redundancy <
        (c.launchChildren c.redundancy).1.nextId := by
      apply h3
      simpa [Children.launch_heartbeat] using hmem
    rw [h2] at hlt
    exact lt_irrefl _ hlt

/-- Witness for C9 at a concrete fresh group. -/
theorem children_c9_witness :
    (sampleFresh.launch_elems).1.launched.length = sampleFresh.redundancy ∧
    (sampleFresh.launch_elems).1.helperActors =
      [sampleFresh.nextId + sampleFresh.redundancy] ∧
    sampleFresh.nextId + sampleFresh.redundancy ∉
      (sampleFresh.launch_elems).1.launched :=
  children_c9_launch_elems sampleFresh rfl rfl

/-- Claim C1: every non-Start envelope delivered before Start is appended to
pre_start_msgs in arrival order with no effects; processing Start marks the
group started, broadcasts Start to the members, replays the buffered
envelopes through the post-start dispatcher in their original relative order
leaving pre_start_msgs empty, and a replay failure terminates the run loop
with failure. -/
theorem children_c1_prestart_replay (c : Children) (arrivals : List Envelope)
    (hs : c.started = false) (hb : c.preStartMsgs = [])
    (hn : ∀ e ∈ arrivals, e.msg ≠ BastionMessage.start) :
    (c.runSteps arrivals).1.preStartMsgs = arrivals ∧
    (c.runSteps arrivals).2.1 = [] ∧
    (c.runSteps arrivals).2.2 = LoopAction.keepGoing ∧
    ((c.runSteps arrivals).1.runDispatch (Envelope.mk BastionMessage.start)).1 =
      (((c.runSteps arrivals).1.postStart).replay arrivals).1 ∧
    ((c.runSteps arrivals).1.runDispatch
        (Envelope.mk BastionMessage.start)).1.started = true ∧
    ((c.runSteps arrivals).1.runDispatch
        (Envelope.mk BastionMessage.start)).1.preStartMsgs = [] ∧
    ((c.runSteps arrivals).1.runDispatch (Envelope.mk BastionMessage.start)).2.1 =
      Effect.sendChildren BastionMessage.start ::
        (((c.runSteps arrivals).1.postStart).replay arrivals).2.1 ∧
    ((c.runSteps arrivals).1.runDispatch (Envelope.mk BastionMessage.start)).2.2 =
      toLoop ((((c.runSteps arrivals).1.postStart).replay arrivals).2.2) ∧
    ((((c.runSteps arrivals).1.postStart).replay arrivals).2.2 = HStatus.err →
      ((c.runSteps arrivals).1.runDispatch
        (Envelope.mk BastionMessage.start)).2.2 = LoopAction.exitLoop) := by
  have hbuf := runSteps_buffer arrivals c hs hn
  rw [hb] at hbuf
  simp only [List.nil_append] at hbuf
  have hrd : ({ c with preStartMsgs := arrivals } : Children).runDispatch
      (Envelope.mk BastionMessage.start) =
      ((({ c with preStartMsgs := arrivals } : Children).postStart.replay
          arrivals).1,
       Effect.sendChildren BastionMessage.start ::
         (({ c with preStartMsgs := arrivals } : Children).postStart.replay
           arrivals).2.1,
       toLoop ((({ c with preStartMsgs := arrivals } : Children).postStart.replay
           arrivals).2.2)) :=
    runDispatch_start ({ c with preStartMsgs := arrivals } : Children)
  have hrep := replay_preserves arrivals
    (({ c with preStartMsgs := arrivals } : Children).postStart)
  rw [hbuf]
  dsimp only
  refine ⟨rfl, rfl, rfl, ?_, ?_, ?_, ?_, ?_, ?_⟩
  · rw [hrd]
  · rw [hrd]
    exact hrep.2
  · rw [hrd]
    exact hrep.1
  · rw [hrd]
  · rw [hrd]
  · intro h
    rw [hrd]
    dsimp only
    rw [h]
    rfl

/-- Witness for C1 at a concrete fresh group and arrival sequence. -/
theorem children_c1_witness :
    (sampleFresh.runSteps sampleArrivals).1.preStartMsgs = sampleArrivals ∧
    (sampleFresh.runSteps sampleArrivals).2.1 = [] ∧
    (sampleFresh.runSteps sampleArrivals).2.2 = LoopAction.keepGoing ∧
    ((sampleFresh.runSteps sampleArrivals).1.runDispatch
        (Envelope.mk BastionMessage.start)).1 =
      (((sampleFresh.runSteps sampleArrivals).1.postStart).replay
        sampleArrivals).1 ∧
    ((sampleFresh.runSteps sampleArrivals).1.runDispatch
        (Envelope.mk BastionMessage.start)).1.started = true ∧
    ((sampleFresh.runSteps sampleArrivals).1.runDispatch
        (Envelope.mk BastionMessage.start)).1.preStartMsgs = [] ∧
    ((sampleFresh.runSteps sampleArrivals).1.runDispatch
        (Envelope.mk BastionMessage.start)).2.1 =
      Effect.sendChildren BastionMessage.start ::
        (((sampleFresh.runSteps sampleArrivals).1.postStart).replay
          sampleArrivals).2.1 ∧
    ((sampleFresh.runSteps sampleArrivals).1.runDispatch
        (Envelope.mk BastionMessage.start)).2.2 =
      toLoop ((((sampleFresh.runSteps sampleArrivals).1.postStart).replay
        sampleArrivals).2.2) ∧
    ((((sampleFresh.runSteps sampleArrivals).1.postStart).replay
        sampleArrivals).2.2 = HStatus.err →
      ((sampleFresh.runSteps sampleArrivals).1.runDispatch
        (Envelope.mk BastionMessage.start)).2.2 = LoopAction.exitLoop) :=
  children_c1_prestart_replay sampleFresh sampleArrivals rfl rfl (by decide)

end Bastion
